import Mathlib

/-!
Shallow embedding of the FINOS AI Governance Assessment application
(`apps/web/src/components/AssessmentForm.tsx`, `ResultsDisplay.tsx` and the
assessment API route), together with proofs about the risk-scoring pipeline.

The gap-analysis module `apps/web/src/utils/gapAnalysis` and the static
question catalog `components/checklistData` are imported by the route code but
their sources are not part of this snapshot; the definitions for them below are
modelled from the design specification and marked as such in their doc
comments.  All other definitions are direct translations of the TypeScript
source.
-/

namespace AIGov

/-- The closed set of risk categories (`hallucination`, `promptInjection`,
`dataLeakage`) used throughout the application. -/
inductive Risk where
  | hallucination
  | promptInjection
  | dataLeakage
deriving DecidableEq

/-- The system-configuration facts collected by the questionnaire form.  Each
field is a free-form categorical string; `none` models a missing (JavaScript
`undefined`) field. -/
structure UserInputs where
  aiModel : Option String
  useCase : Option String
  dataSensitivity : Option String
  industry : Option String
  accuracyReq : Option String
deriving DecidableEq

/-- Condition under which the hallucination risk applies
(`determineApplicableRisks`, first `if`). -/
def hallucinationCond (u : UserInputs) : Prop :=
  u.accuracyReq = some "critical" ∨ u.accuracyReq = some "high" ∨
  u.industry = some "financial" ∨ u.industry = some "healthcare" ∨
  u.useCase = some "decisionSupport" ∨ u.useCase = some "dataAnalysis"

/-- Condition under which the prompt-injection risk applies
(`determineApplicableRisks`, second `if`). -/
def promptInjectionCond (u : UserInputs) : Prop :=
  u.useCase = some "customerService" ∨ u.useCase = some "documentAnalysis" ∨
  u.aiModel = some "thirdParty" ∨ u.aiModel = some "apiBased" ∨
  u.dataSensitivity = some "confidential" ∨ u.dataSensitivity = some "restricted"

/-- Condition under which the data-leakage risk applies
(`determineApplicableRisks`, third `if`). -/
def dataLeakageCond (u : UserInputs) : Prop :=
  u.aiModel = some "thirdParty" ∨ u.aiModel = some "apiBased" ∨
  u.dataSensitivity = some "confidential" ∨ u.dataSensitivity = some "restricted" ∨
  u.industry = some "financial" ∨ u.industry = some "healthcare"

instance (u : UserInputs) : Decidable (hallucinationCond u) := by
  unfold hallucinationCond; infer_instance

instance (u : UserInputs) : Decidable (promptInjectionCond u) := by
  unfold promptInjectionCond; infer_instance

instance (u : UserInputs) : Decidable (dataLeakageCond u) := by
  unfold dataLeakageCond; infer_instance

/-- Removes duplicates keeping the first occurrence of each element, as the
JavaScript `[...new Set(xs)]` idiom does (a `Set` records elements in
insertion order, ignoring re-insertions). -/
def setDedup (l : List Risk) : List Risk :=
  l.foldl (fun acc x => if x ∈ acc then acc else acc ++ [x]) []

/-- Translation of `determineApplicableRisks` from the assessment API route:
pushes each applicable category in a fixed order, defaults to prompt injection
when nothing matched, and removes duplicates with a `Set`. -/
def determineApplicableRisks (u : UserInputs) : List Risk :=
  let acc :=
    (if hallucinationCond u then [Risk.hallucination] else []) ++
    (if promptInjectionCond u then [Risk.promptInjection] else []) ++
    (if dataLeakageCond u then [Risk.dataLeakage] else [])
  let acc2 := if acc = [] then [Risk.promptInjection] else acc
  setDedup acc2

/-- Translation of the base-score assignment at the top of
`handleChecklistAssessment`: each applicable risk receives a hand-picked base
score depending on the system configuration. -/
def baseRiskScores (u : UserInputs) (applicableRisks : List Risk) : List (Risk × Int) :=
  applicableRisks.map (fun risk =>
    if risk = Risk.dataLeakage ∧ (u.aiModel = some "thirdParty" ∨ u.aiModel = some "apiBased") then
      (risk, 80)
    else if risk = Risk.hallucination ∧ u.accuracyReq = some "critical" then
      (risk, 85)
    else if risk = Risk.promptInjection ∧ u.useCase = some "customerService" then
      (risk, 75)
    else
      (risk, 70))

/-- JavaScript `Math.round`: rounds to the nearest integer, halves toward
positive infinity. -/
def jsRound (q : Rat) : Int := ⌊q + 1 / 2⌋

/-- Translation of the overall-score computation of
`handleChecklistAssessment`: the average adjusted risk is subtracted from 100,
half the total risk reduction is added back, the result is clamped to
`[10, 100]` and finally rounded (`Math.round`) when the response is built. -/
def checklistOverallScore (adjustedRiskScores : List (Risk × Int)) (totalRiskReduction : Int) : Int :=
  let avgRiskScore : Rat :=
    (adjustedRiskScores.map (fun p => (p.2 : Rat))).sum / (adjustedRiskScores.length : Rat)
  jsRound (max 10 (min 100 (100 - avgRiskScore + (totalRiskReduction : Rat) / 2)))

/-- Statement of the specification's formula
`clamp(100 - average(adjustedScores.values()) + totalRiskReduction/2, 10, 100)`,
written from the spec's words for comparison with `checklistOverallScore`. -/
def overallComplianceScoreSpec (scores : List Rat) (totalRiskReduction : Rat) : Rat :=
  max 10 (min 100 (100 - scores.sum / (scores.length : Rat) + totalRiskReduction / 2))

/-- The three possible answers to a checklist question
(`checklistData.ChecklistAnswer`). -/
inductive ChecklistAnswer where
  | yes
  | no
  | na
deriving DecidableEq

/-- One statically defined checklist item: numeric id, risk category, question
and purpose text, and the declared risk-reduction weight
(`checklistData.ChecklistQuestion`). -/
structure ChecklistQuestion where
  id : Int
  category : Risk
  question : String
  purpose : String
  weight : Int
deriving DecidableEq

/-- One answered question as sent to the assessment endpoint
(`checklistData.ChecklistResponse`). -/
structure ChecklistResponse where
  questionId : Int
  answer : ChecklistAnswer
deriving DecidableEq

/-- The payload shape built by `submitChecklist`: responses grouped into one
ordered list per risk category (`checklistData.ChecklistData`). -/
structure ChecklistData where
  hallucination : List ChecklistResponse
  promptInjection : List ChecklistResponse
  dataLeakage : List ChecklistResponse
deriving DecidableEq

/-- Translation of `isFormComplete` from `ChecklistAssessment`: every catalog
question must have a response. -/
def isFormComplete (catalog : List ChecklistQuestion)
    (responses : Int → Option ChecklistAnswer) : Bool :=
  catalog.all (fun q => (responses q.id).isSome)

/-- Translation of the payload construction inside `submitChecklist`: one
record per catalog question, pushed in catalog order into the list of the
question's category.  The `getD` default is never reached because the build is
only run once `isFormComplete` holds. -/
def buildChecklistData (catalog : List ChecklistQuestion)
    (responses : Int → Option ChecklistAnswer) : ChecklistData where
  hallucination :=
    (catalog.filter (fun q => q.category == Risk.hallucination)).map
      (fun q => ⟨q.id, (responses q.id).getD ChecklistAnswer.na⟩)
  promptInjection :=
    (catalog.filter (fun q => q.category == Risk.promptInjection)).map
      (fun q => ⟨q.id, (responses q.id).getD ChecklistAnswer.na⟩)
  dataLeakage :=
    (catalog.filter (fun q => q.category == Risk.dataLeakage)).map
      (fun q => ⟨q.id, (responses q.id).getD ChecklistAnswer.na⟩)

/-- Translation of `submitChecklist` from `ChecklistAssessment`: when any
catalog question is unanswered, only an alert is shown and no request is made
(modelled as `none`); otherwise the grouped payload is posted. -/
def submitChecklist (catalog : List ChecklistQuestion)
    (responses : Int → Option ChecklistAnswer) : Option ChecklistData :=
  if isFormComplete catalog responses then some (buildChecklistData catalog responses)
  else none

/-- All records of a checklist payload, in the order the three category lists
are laid out in the `ChecklistData` object. -/
def cdRecords (cd : ChecklistData) : List ChecklistResponse :=
  cd.hallucination ++ cd.promptInjection ++ cd.dataLeakage

/-- Per-question derived status inside the gap report: implemented flag plus
the originating category and weight. -/
structure ImplStatus where
  implemented : Bool
  category : Risk
  weight : Int
deriving DecidableEq

/-- The structured gap report produced by the gap-analysis module. -/
structure GapAnalysis where
  implementationStatus : List (Int × ImplStatus)
  totalRiskReduction : Int
  gapPercentage : Rat
deriving DecidableEq

/-- Modelled from the spec: the raw risk reduction of one category is the sum
of the weights of the catalog questions of that category whose answer is
exactly `yes` (`utils/gapAnalysis` is not part of the source snapshot). -/
def rawReduction (catalog : List ChecklistQuestion)
    (answers : Int → Option ChecklistAnswer) (c : Risk) : Int :=
  ((catalog.filter (fun q =>
    q.category == c && answers q.id == some ChecklistAnswer.yes)).map
      (fun q => q.weight)).sum

/-- Modelled from the spec: the adjusted score of a category is
`max(floor, baseScore - rawReduction)`. -/
def adjustOne (flo base raw : Int) : Int := max flo (base - raw)

/-- Modelled from the spec: the applied reduction of a category is the raw
reduction capped at `baseScore - floor`; the excess is not credited. -/
def appliedReduction (flo base raw : Int) : Int := min raw (base - flo)

/-- Modelled from the spec: `calculateRiskScoresWithGaps` of the missing
`utils/gapAnalysis` module.  Computes the per-category adjusted scores, the
total applied risk reduction, the per-question implementation status, and the
gap percentage, with the floor as a configuration constant. -/
def calculateRiskScoresWithGaps (flo : Int) (baseScores : List (Risk × Int))
    (answers : Int → Option ChecklistAnswer) (catalog : List ChecklistQuestion) :
    List (Risk × Int) × GapAnalysis :=
  let adjusted := baseScores.map
    (fun p => (p.1, adjustOne flo p.2 (rawReduction catalog answers p.1)))
  let total := (baseScores.map
    (fun p => appliedReduction flo p.2 (rawReduction catalog answers p.1))).sum
  let status := catalog.map (fun q =>
    (q.id, ImplStatus.mk (answers q.id == some ChecklistAnswer.yes) q.category q.weight))
  let gapPct : Rat :=
    ((catalog.filter (fun q => !(answers q.id == some ChecklistAnswer.yes))).length : Rat) /
      (catalog.length : Rat) * 100
  (adjusted, ⟨status, total, gapPct⟩)

/-- One entry of the recommendation list for a missing control, carrying the
question's purpose text, category and weight. -/
structure GapRecommendation where
  questionId : Int
  purpose : String
  category : Risk
  weight : Int
deriving DecidableEq

/-- Ordering of recommendations: descending weight, ties broken by ascending
question id. -/
def recBefore (a b : GapRecommendation) : Prop :=
  b.weight < a.weight ∨ (a.weight = b.weight ∧ a.questionId ≤ b.questionId)

instance : DecidableRel recBefore := fun a b => by
  unfold recBefore; infer_instance

instance : IsTotal GapRecommendation recBefore :=
  ⟨by intro a b; unfold recBefore; omega⟩

instance : IsTrans GapRecommendation recBefore :=
  ⟨by intro a b c; unfold recBefore; omega⟩

/-- Modelled from the spec: `generateGapRecommendations` of the missing
`utils/gapAnalysis` module produces one recommendation per not-implemented
question (any answer other than `yes`), carrying the question's purpose and
category, ordered by descending weight with ties broken by ascending id. -/
def generateGapRecommendations (catalog : List ChecklistQuestion)
    (answers : Int → Option ChecklistAnswer) : List GapRecommendation :=
  List.insertionSort recBefore
    ((catalog.filter (fun q => !(answers q.id == some ChecklistAnswer.yes))).map
      (fun q => ⟨q.id, q.purpose, q.category, q.weight⟩))

/-- JavaScript `a || b` on a possibly missing string: the default is used when
the field is `undefined` or the empty string (both falsy). -/
def jsOr (o : Option String) (d : String) : String :=
  match o with
  | some s => if s = "" then d else s
  | none => d

/-- JavaScript string interpolation of a possibly missing field:
`undefined` prints as the literal text "undefined". -/
def jsStr (o : Option String) : String := o.getD "undefined"

/-- The string key under which each risk category travels in the route code
(object keys of `riskScores`, elements of `applicableRisks`). -/
def riskKey (r : Risk) : String :=
  match r with
  | Risk.hallucination => "hallucination"
  | Risk.promptInjection => "promptInjection"
  | Risk.dataLeakage => "dataLeakage"

/-- The part of the parsed assessment object that the claims are about; the
remaining response fields (mitigation list, product info, token count) are
opaque pass-through payload. -/
structure StdAssessment where
  overallScore : Int
  riskScores : List (Risk × Int)
  analysis : String
deriving DecidableEq

/-- The route's response envelope: `success` flag plus the assessment. -/
structure StdResponse where
  success : Bool
  assessment : StdAssessment
deriving DecidableEq

/-- Translation of the fallback compliance score in the `catch` branch of
`handleStandardAssessment`. -/
def fallbackComplianceScore (u : UserInputs) : Int :=
  if u.dataSensitivity = some "restricted" then 45
  else if u.dataSensitivity = some "confidential" then 55
  else if u.aiModel = some "thirdParty" ∨ u.aiModel = some "apiBased" then 60
  else 70

/-- Translation of the per-risk fallback risk scores in the `catch` branch of
`handleStandardAssessment`. -/
def fallbackRiskScores (u : UserInputs) (applicableRisks : List Risk) : List (Risk × Int) :=
  applicableRisks.map (fun risk =>
    if risk = Risk.dataLeakage ∧ (u.aiModel = some "thirdParty" ∨ u.aiModel = some "apiBased") then
      (risk, 75)
    else if risk = Risk.hallucination ∧ u.accuracyReq = some "critical" then
      (risk, 80)
    else if risk = Risk.promptInjection ∧ u.useCase = some "customerService" then
      (risk, 70)
    else
      (risk, 60))

/-- Translation of the canned analysis text built in the `catch` branch of
`handleStandardAssessment`. -/
def fallbackAnalysis (u : UserInputs) (applicableRisks : List Risk) : String :=
  "Assessment completed for your " ++ jsOr u.industry "industry" ++
  " AI system using " ++ jsOr u.aiModel "AI model" ++
  " for " ++ jsOr u.useCase "use case" ++
  ". The system requires attention in the assessed risk areas based on data sensitivity level (" ++
  jsOr u.dataSensitivity "not specified" ++
  ") and accuracy requirements (" ++ jsOr u.accuracyReq "not specified" ++
  "). Review the FINOS framework recommendations for " ++
  String.intercalate ", " (applicableRisks.map riskKey) ++ " risks."

/-- The complete fallback assessment substituted in the `catch` branch of
`handleStandardAssessment`. -/
def fallbackAssessment (u : UserInputs) (applicableRisks : List Risk) : StdAssessment where
  overallScore := fallbackComplianceScore u
  riskScores := fallbackRiskScores u applicableRisks
  analysis := fallbackAnalysis u applicableRisks

/-- Translation of the parse-and-respond logic of `handleStandardAssessment`:
the external text-generation response either parses into an assessment with
the required fields (`some`) or not (`none`); a failed parse is replaced by
the hardcoded fallback, and in both cases a success response is returned. -/
def handleStandardAssessment (u : UserInputs) (applicableRisks : List Risk)
    (parsed : Option StdAssessment) : StdResponse :=
  match parsed with
  | some a => ⟨true, a⟩
  | none => ⟨true, fallbackAssessment u applicableRisks⟩

/-- One FINOS mitigation entry of the static framework reference data. -/
structure Mitigation where
  id : String
  name : String
  description : String
deriving DecidableEq

/-- One contributing-factor entry of the static framework reference data. -/
structure ContributingFactor where
  factor : String
  description : String
deriving DecidableEq

/-- One example entry of the static framework reference data. -/
structure FrameworkExample where
  title : String
  description : String
deriving DecidableEq

/-- The static FINOS framework data loaded for one risk category. -/
structure Framework where
  id : String
  title : String
  key_mitigations : List Mitigation
  contributing_factors : List ContributingFactor
  examples : List FrameworkExample
deriving DecidableEq

/-- A mitigation record pushed onto `finosRiskMitigations` in
`handleChecklistAssessment`. -/
structure MitigationOut where
  riskId : String
  riskName : String
  mitigationId : String
  mitigationName : String
  priority : String
  summary : String
deriving DecidableEq

/-- A record pushed onto `contributingFactors` in
`handleChecklistAssessment`. -/
structure FactorOut where
  riskId : String
  factor : String
  relevance : String
  explanation : String
deriving DecidableEq

/-- A record pushed onto `relevantExamples` in `handleChecklistAssessment`. -/
structure ExampleOut where
  riskId : String
  exampleTitle : String
  relevanceToSystem : String
deriving DecidableEq

/-- Translation of the body of the `forEach` over `adjustedRiskScores` in
`handleChecklistAssessment`: for one risk with its adjusted score, the FINOS
items contributed to the three output lists.  Nothing is contributed when the
score is below 50 or no framework was loaded for the risk. -/
def finosForRisk (u : UserInputs) (frameworks : Risk → Option Framework)
    (r : Risk) (score : Int) :
    List MitigationOut × List FactorOut × List ExampleOut :=
  if 50 ≤ score then
    match frameworks r with
    | some fw =>
      (fw.key_mitigations.map (fun m =>
        ⟨fw.id, fw.title, m.id, m.name,
          if 70 ≤ score then "High" else if 60 ≤ score then "Medium" else "Low",
          m.description⟩),
       (fw.contributing_factors.take 2).map (fun f =>
        ⟨fw.id, f.factor,
          if 70 ≤ score then "High" else if 60 ≤ score then "Medium" else "Low",
          f.description⟩),
       (fw.examples.take 1).map (fun e =>
        ⟨fw.id, e.title,
          "This example applies to your " ++ jsStr u.useCase ++ " system: " ++
            e.description.take 150 ++ "..."⟩))
    | none => ([], [], [])
  else ([], [], [])

/-- Translation of the complete `forEach` over `adjustedRiskScores` in
`handleChecklistAssessment` building `finosRiskMitigations`,
`contributingFactors` and `relevantExamples` by pushing, in order, the items
of every risk entry. -/
def finosOutputs (u : UserInputs) (frameworks : Risk → Option Framework)
    (adjusted : List (Risk × Int)) :
    List MitigationOut × List FactorOut × List ExampleOut :=
  (adjusted.flatMap (fun p => (finosForRisk u frameworks p.1 p.2).1),
   adjusted.flatMap (fun p => (finosForRisk u frameworks p.1 p.2).2.1),
   adjusted.flatMap (fun p => (finosForRisk u frameworks p.1 p.2).2.2))

/-! ### Theorems about the claims -/

/-- Claim C8: for every `userInputs` object (including one with all fields
missing or unrecognized), `determineApplicableRisks` returns a non-empty,
duplicate-free list whose elements are drawn from hallucination, prompt
injection and data leakage; when no rule matches, the result is exactly
`[promptInjection]`. -/
theorem determineApplicableRisks_sound (u : UserInputs) :
    determineApplicableRisks u ≠ [] ∧
    (determineApplicableRisks u).Nodup ∧
    (∀ r ∈ determineApplicableRisks u,
      r ∈ [Risk.hallucination, Risk.promptInjection, Risk.dataLeakage]) ∧
    (¬ hallucinationCond u ∧ ¬ promptInjectionCond u ∧ ¬ dataLeakageCond u →
      determineApplicableRisks u = [Risk.promptInjection]) := by
  by_cases h1 : hallucinationCond u <;>
    by_cases h2 : promptInjectionCond u <;>
      by_cases h3 : dataLeakageCond u <;>
        simp [determineApplicableRisks, setDedup, h1, h2, h3]

/-- Witness for C8: with every questionnaire field missing, no rule matches
and the result is exactly the prompt-injection singleton. -/
theorem determineApplicableRisks_sound_witness :
    ¬ hallucinationCond ⟨none, none, none, none, none⟩ ∧
    ¬ promptInjectionCond ⟨none, none, none, none, none⟩ ∧
    ¬ dataLeakageCond ⟨none, none, none, none, none⟩ ∧
    determineApplicableRisks ⟨none, none, none, none, none⟩ = [Risk.promptInjection] :=
  ⟨by decide, by decide, by decide,
    (determineApplicableRisks_sound ⟨none, none, none, none, none⟩).2.2.2
      ⟨by decide, by decide, by decide⟩⟩

/-- Claim C4: in the checklist path every applicable risk category receives a
base risk score that is an integer in `[0, 100]` — concretely 80 for data
leakage on third-party or API-based models, 85 for hallucination with critical
accuracy requirements, 75 for prompt injection with the customer-service use
case, 70 otherwise — and the base-score mapping contains an entry for every
category under assessment. -/
theorem baseRiskScores_sound (u : UserInputs) (risks : List Risk) (r : Risk)
    (hmem : r ∈ risks) :
    ∃ s : Int, (r, s) ∈ baseRiskScores u risks ∧
      s = (if r = Risk.dataLeakage ∧ (u.aiModel = some "thirdParty" ∨ u.aiModel = some "apiBased")
            then 80
           else if r = Risk.hallucination ∧ u.accuracyReq = some "critical" then 85
           else if r = Risk.promptInjection ∧ u.useCase = some "customerService" then 75
           else 70) ∧
      0 ≤ s ∧ s ≤ 100 := by
  refine ⟨_, List.mem_map.mpr ⟨r, hmem, ?_⟩, rfl, ?_, ?_⟩ <;> split_ifs <;> norm_num

/-- Witness for C4: an API-based system with one applicable risk (data
leakage) receives base score 80, inside `[0, 100]`. -/
theorem baseRiskScores_sound_witness :
    Risk.dataLeakage ∈ [Risk.dataLeakage] ∧
    ∃ s : Int,
      (Risk.dataLeakage, s) ∈
        baseRiskScores ⟨some "apiBased", none, none, none, none⟩ [Risk.dataLeakage] ∧
      s = (if Risk.dataLeakage = Risk.dataLeakage ∧
              ((⟨some "apiBased", none, none, none, none⟩ : UserInputs).aiModel = some "thirdParty" ∨
               (⟨some "apiBased", none, none, none, none⟩ : UserInputs).aiModel = some "apiBased")
            then 80
           else if Risk.dataLeakage = Risk.hallucination ∧
              (⟨some "apiBased", none, none, none, none⟩ : UserInputs).accuracyReq = some "critical" then 85
           else if Risk.dataLeakage = Risk.promptInjection ∧
              (⟨some "apiBased", none, none, none, none⟩ : UserInputs).useCase = some "customerService" then 75
           else 70) ∧
      0 ≤ s ∧ s ≤ 100 :=
  ⟨by decide,
    baseRiskScores_sound ⟨some "apiBased", none, none, none, none⟩ [Risk.dataLeakage]
      Risk.dataLeakage (by decide)⟩

/-- Claim C5: when the external text-generation response in the
standard-assessment path fails to parse or lacks the required fields, the
handler substitutes the hardcoded fallback assessment — compliance score 45
for restricted data sensitivity, 55 for confidential, 60 for third-party or
API-based models, otherwise 70, with the canned analysis text — and still
returns a success response. -/
theorem handleStandardAssessment_fallback (u : UserInputs) (risks : List Risk) :
    (handleStandardAssessment u risks none).success = true ∧
    (handleStandardAssessment u risks none).assessment.overallScore =
      (if u.dataSensitivity = some "restricted" then 45
       else if u.dataSensitivity = some "confidential" then 55
       else if u.aiModel = some "thirdParty" ∨ u.aiModel = some "apiBased" then 60
       else 70) ∧
    (handleStandardAssessment u risks none).assessment.analysis = fallbackAnalysis u risks :=
  ⟨rfl, rfl, rfl⟩

/-- Claim C1: for every checklist-path assessment, the overall compliance
score equals `clamp(100 - average(adjustedScores.values()) +
totalRiskReduction/2, 10, 100)` — rounded, as the route's `Math.round` does,
to an integer — and that integer lies in `[0, 100]`. -/
theorem checklistOverallScore_eq_spec (adjusted : List (Risk × Int)) (tRR : Int)
    (_hne : adjusted ≠ []) :
    checklistOverallScore adjusted tRR =
      jsRound (overallComplianceScoreSpec (adjusted.map (fun p => (p.2 : Rat))) (tRR : Rat)) ∧
    0 ≤ checklistOverallScore adjusted tRR ∧ checklistOverallScore adjusted tRR ≤ 100 := by
  have heq : checklistOverallScore adjusted tRR =
      jsRound (overallComplianceScoreSpec (adjusted.map (fun p => (p.2 : Rat))) (tRR : Rat)) := by
    simp [checklistOverallScore, overallComplianceScoreSpec, List.length_map]
  refine ⟨heq, ?_, ?_⟩ <;> rw [heq]
  · have h10 : (10 : Rat) ≤
        overallComplianceScoreSpec (adjusted.map (fun p => (p.2 : Rat))) (tRR : Rat) :=
      le_max_left _ _
    have : (0 : Rat) ≤
        overallComplianceScoreSpec (adjusted.map (fun p => (p.2 : Rat))) (tRR : Rat) + 1 / 2 := by
      linarith
    exact Int.le_floor.mpr (by exact_mod_cast this)
  · have h100 : overallComplianceScoreSpec (adjusted.map (fun p => (p.2 : Rat))) (tRR : Rat) ≤ 100 :=
      max_le (by norm_num) (min_le_left _ _)
    have hlt : overallComplianceScoreSpec (adjusted.map (fun p => (p.2 : Rat))) (tRR : Rat) + 1 / 2 <
        ((101 : Int) : Rat) := by
      push_cast
      linarith
    have := Int.floor_lt.mpr hlt
    unfold jsRound
    omega

/-- Witness for C1: one adjusted score of 65 with a total risk reduction of
20 gives `round(clamp(100 - 65 + 10, 10, 100)) = 45`, inside `[0, 100]`. -/
theorem checklistOverallScore_eq_spec_witness :
    ([(Risk.hallucination, (65 : Int))] ≠ []) ∧
    (checklistOverallScore [(Risk.hallucination, 65)] 20 =
      jsRound (overallComplianceScoreSpec
        (([(Risk.hallucination, (65 : Int))]).map (fun p => (p.2 : Rat))) ((20 : Int) : Rat)) ∧
    0 ≤ checklistOverallScore [(Risk.hallucination, 65)] 20 ∧
    checklistOverallScore [(Risk.hallucination, 65)] 20 ≤ 100) :=
  ⟨by decide, checklistOverallScore_eq_spec [(Risk.hallucination, 65)] 20 (by decide)⟩

/-- The raw reduction of a category is non-negative whenever all catalog
weights are non-negative. -/
lemma rawReduction_nonneg (catalog : List ChecklistQuestion)
    (answers : Int → Option ChecklistAnswer) (c : Risk)
    (hw : ∀ q ∈ catalog, 0 ≤ q.weight) :
    0 ≤ rawReduction catalog answers c := by
  apply List.sum_nonneg
  intro x hx
  rcases List.mem_map.mp hx with ⟨q, hq, rfl⟩
  exact hw q (List.mem_filter.mp hq).1

/-- Claim C2: for every category present in the input base scores and every
checklist, the adjusted score satisfies
`floor ≤ adjustedScores[c] ≤ baseScores[c]`: the gap adjustment never
increases a risk score and never drives it below the configured floor. -/
theorem adjustedScores_between_floor_and_base (flo : Int) (baseScores : List (Risk × Int))
    (answers : Int → Option ChecklistAnswer) (catalog : List ChecklistQuestion)
    (hw : ∀ q ∈ catalog, 0 ≤ q.weight) (c : Risk) (b : Int)
    (hmem : (c, b) ∈ baseScores) (hfb : flo ≤ b) :
    ∃ a : Int, (c, a) ∈ (calculateRiskScoresWithGaps flo baseScores answers catalog).1 ∧
      flo ≤ a ∧ a ≤ b := by
  have hraw := rawReduction_nonneg catalog answers c hw
  refine ⟨adjustOne flo b (rawReduction catalog answers c),
    List.mem_map.mpr ⟨(c, b), hmem, rfl⟩, le_max_left _ _, ?_⟩
  unfold adjustOne
  omega

/-- Witness for C2: the spec's first scenario — base score 85 for
hallucination, floor 10, a catalog of two hallucination questions weighted 20
and 15, the first answered yes and the second no — has an adjusted score in
`[10, 85]` (concretely 65). -/
theorem adjustedScores_between_floor_and_base_witness :
    (∀ q ∈ [ChecklistQuestion.mk 1 Risk.hallucination "q1" "p1" 20,
            ChecklistQuestion.mk 2 Risk.hallucination "q2" "p2" 15], 0 ≤ q.weight) ∧
    ((Risk.hallucination, (85 : Int)) ∈ [(Risk.hallucination, (85 : Int))]) ∧
    ((10 : Int) ≤ 85) ∧
    ∃ a : Int,
      (Risk.hallucination, a) ∈
        (calculateRiskScoresWithGaps 10 [(Risk.hallucination, 85)]
          (fun i => if i = 1 then some ChecklistAnswer.yes
                    else if i = 2 then some ChecklistAnswer.no else none)
          [ChecklistQuestion.mk 1 Risk.hallucination "q1" "p1" 20,
           ChecklistQuestion.mk 2 Risk.hallucination "q2" "p2" 15]).1 ∧
      10 ≤ a ∧ a ≤ 85 :=
  ⟨by decide, by decide, by decide,
    adjustedScores_between_floor_and_base 10 [(Risk.hallucination, 85)] _ _
      (by decide) Risk.hallucination 85 (by decide) (by decide)⟩

/-- The applied (post-floor) reduction is exactly the amount subtracted from
the base score to reach the adjusted score. -/
lemma appliedReduction_eq_base_sub_adjusted (flo base raw : Int) :
    appliedReduction flo base raw = base - adjustOne flo base raw := by
  unfold appliedReduction adjustOne
  omega

/-- Claim C3: `gapAnalysis.totalRiskReduction` is non-negative and exactly
equals the sum over all categories of `baseScores[c] - adjustedScores[c]` —
the applied, post-floor reductions, not the raw weight sums. -/
theorem totalRiskReduction_eq_sum_of_applied (flo : Int) (baseScores : List (Risk × Int))
    (answers : Int → Option ChecklistAnswer) (catalog : List ChecklistQuestion)
    (hw : ∀ q ∈ catalog, 0 ≤ q.weight) (hfb : ∀ p ∈ baseScores, flo ≤ p.2) :
    (calculateRiskScoresWithGaps flo baseScores answers catalog).2.totalRiskReduction =
      (baseScores.map (fun p => p.2)).sum -
      (((calculateRiskScoresWithGaps flo baseScores answers catalog).1).map (fun p => p.2)).sum ∧
    0 ≤ (calculateRiskScoresWithGaps flo baseScores answers catalog).2.totalRiskReduction := by
  constructor
  · simp only [calculateRiskScoresWithGaps, List.map_map]
    induction baseScores with
    | nil => simp
    | cons p t ih =>
      simp only [List.map_cons, List.sum_cons, Function.comp] at ih ⊢
      rw [appliedReduction_eq_base_sub_adjusted,
        ih (fun x hx => hfb x (List.mem_cons_of_mem _ hx))]
      ring
  · simp only [calculateRiskScoresWithGaps]
    apply List.sum_nonneg
    intro x hx
    rcases List.mem_map.mp hx with ⟨p, hp, rfl⟩
    have hraw := rawReduction_nonneg catalog answers p.1 hw
    have hb := hfb p hp
    unfold appliedReduction
    omega

/-- Witness for C3: the spec's capped scenario — base score 85, floor 10, two
hallucination questions weighted 60 and 40 both answered yes — has
`totalRiskReduction = 85 - adjusted = 75`, non-negative. -/
theorem totalRiskReduction_eq_sum_of_applied_witness :
    (∀ q ∈ [ChecklistQuestion.mk 1 Risk.hallucination "q1" "p1" 60,
            ChecklistQuestion.mk 2 Risk.hallucination "q2" "p2" 40], 0 ≤ q.weight) ∧
    (∀ p ∈ [(Risk.hallucination, (85 : Int))], (10 : Int) ≤ p.2) ∧
    ((calculateRiskScoresWithGaps 10 [(Risk.hallucination, 85)]
        (fun _ => some ChecklistAnswer.yes)
        [ChecklistQuestion.mk 1 Risk.hallucination "q1" "p1" 60,
         ChecklistQuestion.mk 2 Risk.hallucination "q2" "p2" 40]).2.totalRiskReduction =
      ([(Risk.hallucination, (85 : Int))].map (fun p => p.2)).sum -
      (((calculateRiskScoresWithGaps 10 [(Risk.hallucination, 85)]
          (fun _ => some ChecklistAnswer.yes)
          [ChecklistQuestion.mk 1 Risk.hallucination "q1" "p1" 60,
           ChecklistQuestion.mk 2 Risk.hallucination "q2" "p2" 40]).1).map (fun p => p.2)).sum ∧
     0 ≤ (calculateRiskScoresWithGaps 10 [(Risk.hallucination, 85)]
        (fun _ => some ChecklistAnswer.yes)
        [ChecklistQuestion.mk 1 Risk.hallucination "q1" "p1" 60,
         ChecklistQuestion.mk 2 Risk.hallucination "q2" "p2" 40]).2.totalRiskReduction) :=
  ⟨by decide, by decide,
    totalRiskReduction_eq_sum_of_applied 10 [(Risk.hallucination, 85)] _ _
      (by decide) (by decide)⟩

/-- Claim C6: `generateGapRecommendations` produces exactly one recommendation
per not-implemented question, each carrying the question's purpose text and
category, ordered by descending weight with ties broken by ascending question
id; in particular two missing controls of equal weight 30 on ids 3 and 7 are
ordered `[id 3, id 7]`. -/
theorem generateGapRecommendations_sound (catalog : List ChecklistQuestion)
    (answers : Int → Option ChecklistAnswer) :
    (generateGapRecommendations catalog answers).length =
      (catalog.filter (fun q => !(answers q.id == some ChecklistAnswer.yes))).length ∧
    (∀ r ∈ generateGapRecommendations catalog answers,
      ∃ q ∈ catalog, ¬ answers q.id = some ChecklistAnswer.yes ∧
        r = ⟨q.id, q.purpose, q.category, q.weight⟩) ∧
    (generateGapRecommendations catalog answers).Sorted recBefore ∧
    (generateGapRecommendations
        [ChecklistQuestion.mk 7 Risk.hallucination "q7" "p7" 30,
         ChecklistQuestion.mk 3 Risk.hallucination "q3" "p3" 30]
        (fun _ => some ChecklistAnswer.no)).map (fun r => r.questionId) = [3, 7] := by
  refine ⟨?_, ?_, List.sorted_insertionSort recBefore _, by decide⟩
  · rw [generateGapRecommendations,
      (List.perm_insertionSort recBefore _).length_eq, List.length_map]
  · intro r hr
    rw [generateGapRecommendations] at hr
    have hr' := (List.perm_insertionSort recBefore _).mem_iff.mp hr
    rcases List.mem_map.mp hr' with ⟨q, hq, rfl⟩
    rcases List.mem_filter.mp hq with ⟨hqcat, hqans⟩
    exact ⟨q, hqcat, by simpa using hqans, rfl⟩

/-- Witness for C6: on a two-question catalog with both controls missing at
equal weight, the recommendation for id 3 precedes the one for id 7, and each
recommendation carries its question's purpose and category. -/
theorem generateGapRecommendations_sound_witness :
    (generateGapRecommendations
        [ChecklistQuestion.mk 7 Risk.hallucination "q7" "p7" 30,
         ChecklistQuestion.mk 3 Risk.hallucination "q3" "p3" 30]
        (fun _ => some ChecklistAnswer.no)).map (fun r => r.questionId) = [3, 7] :=
  (generateGapRecommendations_sound [] (fun _ => none)).2.2.2

/-- Counting questions that satisfy a predicate splits along the three risk
categories. -/
lemma countP_partition_category (l : List ChecklistQuestion) (pr : ChecklistQuestion → Bool) :
    l.countP (fun q => pr q && (q.category == Risk.hallucination)) +
    l.countP (fun q => pr q && (q.category == Risk.promptInjection)) +
    l.countP (fun q => pr q && (q.category == Risk.dataLeakage)) = l.countP pr := by
  induction l with
  | nil => simp
  | cons q t ih =>
    simp only [List.countP_cons]
    cases hc : q.category <;> cases hp : pr q <;> simp [hc, hp] <;> omega

/-- Every complete set of responses yields, for each catalog question, exactly
one answer in the response map. -/
lemma complete_answers (catalog : List ChecklistQuestion)
    (responses : Int → Option ChecklistAnswer)
    (hc : isFormComplete catalog responses = true) :
    ∀ q ∈ catalog, ∃ a, responses q.id = some a := by
  intro q hq
  have := List.all_eq_true.mp hc q hq
  exact Option.isSome_iff_exists.mp (by simpa using this)

/-- Claim C7: the checklist submission consumed by the assessment endpoint
consists of records `{questionId, answer ∈ {yes, no, na}}` held in ordered
lists, with exactly one record per answered question: each record stems from a
catalog question and carries its stored answer, and every catalog question
contributes a record. -/
theorem submitChecklist_payload_shape (catalog : List ChecklistQuestion)
    (responses : Int → Option ChecklistAnswer)
    (hc : isFormComplete catalog responses = true) :
    ∃ cd, submitChecklist catalog responses = some cd ∧
      (cdRecords cd).length = catalog.length ∧
      (∀ r ∈ cdRecords cd, ∃ q ∈ catalog,
        r.questionId = q.id ∧ responses q.id = some r.answer) ∧
      (∀ q ∈ catalog, ∃ r ∈ cdRecords cd,
        r.questionId = q.id ∧ responses q.id = some r.answer) := by
  have hcomp := complete_answers catalog responses hc
  refine ⟨buildChecklistData catalog responses, by simp [submitChecklist, hc], ?_, ?_, ?_⟩
  · have h := countP_partition_category catalog (fun _ => true)
    simp only [Bool.true_and, List.countP_true] at h
    simp only [cdRecords, buildChecklistData, List.length_append, List.length_map,
      ← List.countP_eq_length_filter]
    omega
  · intro r hr
    simp only [cdRecords, buildChecklistData, List.mem_append, List.mem_map] at hr
    rcases hr with (⟨q, hq, rfl⟩ | ⟨q, hq, rfl⟩) | ⟨q, hq, rfl⟩ <;>
      rcases List.mem_filter.mp hq with ⟨hqm, _⟩ <;>
      obtain ⟨a, ha⟩ := hcomp q hqm <;>
      exact ⟨q, hqm, rfl, by simp [ha]⟩
  · intro q hq
    obtain ⟨a, ha⟩ := hcomp q hq
    refine ⟨⟨q.id, a⟩, ?_, rfl, ha⟩
    simp only [cdRecords, buildChecklistData, List.mem_append, List.mem_map]
    cases hcat : q.category
    · exact Or.inl (Or.inl ⟨q, List.mem_filter.mpr ⟨hq, by simp [hcat]⟩, by simp [ha]⟩)
    · exact Or.inl (Or.inr ⟨q, List.mem_filter.mpr ⟨hq, by simp [hcat]⟩, by simp [ha]⟩)
    · exact Or.inr ⟨q, List.mem_filter.mpr ⟨hq, by simp [hcat]⟩, by simp [ha]⟩

/-- Witness for C7: a complete three-question catalog submission produces one
record per question, each carrying the stored answer. -/
theorem submitChecklist_payload_shape_witness :
    isFormComplete
      [ChecklistQuestion.mk 1 Risk.hallucination "q1" "p1" 20,
       ChecklistQuestion.mk 2 Risk.promptInjection "q2" "p2" 15,
       ChecklistQuestion.mk 3 Risk.dataLeakage "q3" "p3" 10]
      (fun i => if i = 1 then some ChecklistAnswer.yes
                else if i = 2 then some ChecklistAnswer.no
                else if i = 3 then some ChecklistAnswer.na else none) = true ∧
    ∃ cd, submitChecklist
      [ChecklistQuestion.mk 1 Risk.hallucination "q1" "p1" 20,
       ChecklistQuestion.mk 2 Risk.promptInjection "q2" "p2" 15,
       ChecklistQuestion.mk 3 Risk.dataLeakage "q3" "p3" 10]
      (fun i => if i = 1 then some ChecklistAnswer.yes
                else if i = 2 then some ChecklistAnswer.no
                else if i = 3 then some ChecklistAnswer.na else none) = some cd ∧
      (cdRecords cd).length =
        ([ChecklistQuestion.mk 1 Risk.hallucination "q1" "p1" 20,
          ChecklistQuestion.mk 2 Risk.promptInjection "q2" "p2" 15,
          ChecklistQuestion.mk 3 Risk.dataLeakage "q3" "p3" 10] :
            List ChecklistQuestion).length ∧
      (∀ r ∈ cdRecords cd,
        ∃ q ∈ [ChecklistQuestion.mk 1 Risk.hallucination "q1" "p1" 20,
               ChecklistQuestion.mk 2 Risk.promptInjection "q2" "p2" 15,
               ChecklistQuestion.mk 3 Risk.dataLeakage "q3" "p3" 10],
          r.questionId = q.id ∧
          (fun i => if i = 1 then some ChecklistAnswer.yes
                    else if i = 2 then some ChecklistAnswer.no
                    else if i = 3 then some ChecklistAnswer.na else none) q.id =
            some r.answer) ∧
      (∀ q ∈ [ChecklistQuestion.mk 1 Risk.hallucination "q1" "p1" 20,
              ChecklistQuestion.mk 2 Risk.promptInjection "q2" "p2" 15,
              ChecklistQuestion.mk 3 Risk.dataLeakage "q3" "p3" 10],
        ∃ r ∈ cdRecords cd,
          r.questionId = q.id ∧
          (fun i => if i = 1 then some ChecklistAnswer.yes
                    else if i = 2 then some ChecklistAnswer.no
                    else if i = 3 then some ChecklistAnswer.na else none) q.id =
            some r.answer) :=
  ⟨by decide, submitChecklist_payload_shape _ _ (by decide)⟩

/-- Claim C9: the checklist UI refuses to submit unless every catalog question
has an answer — `submitChecklist` sends no request when any question id lacks
a response — and every submission it does produce contains exactly one answer
per question id. -/
theorem submitChecklist_guard (catalog : List ChecklistQuestion)
    (responses : Int → Option ChecklistAnswer) :
    ((∃ q ∈ catalog, responses q.id = none) → submitChecklist catalog responses = none) ∧
    (∀ cd, submitChecklist catalog responses = some cd →
      (catalog.map (fun q => q.id)).Nodup →
      ∀ q ∈ catalog,
        (cdRecords cd).countP (fun r => r.questionId == q.id) = 1) := by
  constructor
  · rintro ⟨q, hq, hnone⟩
    cases h : isFormComplete catalog responses with
    | false => simp [submitChecklist, h]
    | true =>
      exfalso
      have := List.all_eq_true.mp h q hq
      rw [hnone] at this
      simp at this
  · intro cd hcd hnodup q hq
    rw [submitChecklist] at hcd
    by_cases h : isFormComplete catalog responses = true
    · rw [if_pos h] at hcd
      obtain rfl := Option.some.inj hcd.symm
      simp only [cdRecords, buildChecklistData, List.countP_append, List.countP_map,
        Function.comp_def, List.countP_filter]
      rw [countP_partition_category catalog (fun q' => q'.id == q.id)]
      have hidmem : q.id ∈ catalog.map (fun q' => q'.id) := List.mem_map.mpr ⟨q, hq, rfl⟩
      have hcount := List.count_eq_one_of_mem hnodup hidmem
      rw [List.count, List.countP_map] at hcount
      simpa [Function.comp_def] using hcount
    · rw [if_neg h] at hcd
      exact absurd hcd (by simp)

/-- Witness for C9: the concrete three-question submission of the C7 witness
has exactly one record for question id 2. -/
theorem submitChecklist_guard_witness :
    submitChecklist
      [ChecklistQuestion.mk 1 Risk.hallucination "q1" "p1" 20,
       ChecklistQuestion.mk 2 Risk.promptInjection "q2" "p2" 15,
       ChecklistQuestion.mk 3 Risk.dataLeakage "q3" "p3" 10]
      (fun i => if i = 1 then some ChecklistAnswer.yes
                else if i = 2 then some ChecklistAnswer.no
                else if i = 3 then some ChecklistAnswer.na else none) =
      some ⟨[⟨1, ChecklistAnswer.yes⟩], [⟨2, ChecklistAnswer.no⟩], [⟨3, ChecklistAnswer.na⟩]⟩ ∧
    (cdRecords ⟨[⟨1, ChecklistAnswer.yes⟩], [⟨2, ChecklistAnswer.no⟩],
        [⟨3, ChecklistAnswer.na⟩]⟩).countP
      (fun r => r.questionId == (2 : Int)) = 1 :=
  ⟨by decide,
    (submitChecklist_guard
        [ChecklistQuestion.mk 1 Risk.hallucination "q1" "p1" 20,
         ChecklistQuestion.mk 2 Risk.promptInjection "q2" "p2" 15,
         ChecklistQuestion.mk 3 Risk.dataLeakage "q3" "p3" 10]
        (fun i => if i = 1 then some ChecklistAnswer.yes
                  else if i = 2 then some ChecklistAnswer.no
                  else if i = 3 then some ChecklistAnswer.na else none)).2
      ⟨[⟨1, ChecklistAnswer.yes⟩], [⟨2, ChecklistAnswer.no⟩], [⟨3, ChecklistAnswer.na⟩]⟩
      (by decide) (by decide)
      (ChecklistQuestion.mk 2 Risk.promptInjection "q2" "p2" 15) (by decide)⟩

/-- Claim C10: in the checklist path, FINOS risk mitigations, contributing
factors and relevant examples are included only for categories whose adjusted
risk score is at least 50, and each included mitigation's priority and
factor's relevance is High when that score is at least 70, Medium when at
least 60, and Low otherwise. -/
theorem finosOutputs_only_high_risks (u : UserInputs)
    (frameworks : Risk → Option Framework) (adjusted : List (Risk × Int)) :
    (∀ m ∈ (finosOutputs u frameworks adjusted).1,
      ∃ r s fw, (r, s) ∈ adjusted ∧ 50 ≤ s ∧ frameworks r = some fw ∧
        m.riskId = fw.id ∧
        m.priority = (if 70 ≤ s then "High" else if 60 ≤ s then "Medium" else "Low")) ∧
    (∀ f ∈ (finosOutputs u frameworks adjusted).2.1,
      ∃ r s fw, (r, s) ∈ adjusted ∧ 50 ≤ s ∧ frameworks r = some fw ∧
        f.riskId = fw.id ∧
        f.relevance = (if 70 ≤ s then "High" else if 60 ≤ s then "Medium" else "Low")) ∧
    (∀ e ∈ (finosOutputs u frameworks adjusted).2.2,
      ∃ r s fw, (r, s) ∈ adjusted ∧ 50 ≤ s ∧ frameworks r = some fw ∧
        e.riskId = fw.id) := by
  refine ⟨?_, ?_, ?_⟩
  · intro m hm
    rcases List.mem_flatMap.mp hm with ⟨p, hp, hmin⟩
    by_cases h50 : 50 ≤ p.2
    · cases hfr : frameworks p.1 with
      | none => rw [finosForRisk, if_pos h50, hfr] at hmin; simp at hmin
      | some fw =>
        rw [finosForRisk, if_pos h50, hfr] at hmin
        simp only [List.mem_map] at hmin
        obtain ⟨y, _, rfl⟩ := hmin
        exact ⟨p.1, p.2, fw, hp, h50, hfr, rfl, rfl⟩
    · rw [finosForRisk, if_neg h50] at hmin
      simp at hmin
  · intro f hf
    rcases List.mem_flatMap.mp hf with ⟨p, hp, hfin⟩
    by_cases h50 : 50 ≤ p.2
    · cases hfr : frameworks p.1 with
      | none => rw [finosForRisk, if_pos h50, hfr] at hfin; simp at hfin
      | some fw =>
        rw [finosForRisk, if_pos h50, hfr] at hfin
        simp only [List.mem_map] at hfin
        obtain ⟨y, _, rfl⟩ := hfin
        exact ⟨p.1, p.2, fw, hp, h50, hfr, rfl, rfl⟩
    · rw [finosForRisk, if_neg h50] at hfin
      simp at hfin
  · intro e he
    rcases List.mem_flatMap.mp he with ⟨p, hp, hein⟩
    by_cases h50 : 50 ≤ p.2
    · cases hfr : frameworks p.1 with
      | none => rw [finosForRisk, if_pos h50, hfr] at hein; simp at hein
      | some fw =>
        rw [finosForRisk, if_pos h50, hfr] at hein
        simp only [List.mem_map] at hein
        obtain ⟨y, _, rfl⟩ := hein
        exact ⟨p.1, p.2, fw, hp, h50, hfr, rfl⟩
    · rw [finosForRisk, if_neg h50] at hein
      simp at hein

/-- Witness for C10: a single hallucination entry with adjusted score 65 and a
one-mitigation framework yields a mitigation traced back to that entry with
Medium priority. -/
theorem finosOutputs_only_high_risks_witness :
    (MitigationOut.mk "AIR-OP-004" "Hallucination" "AIR-PREV-005" "Testing" "Medium" "desc") ∈
      (finosOutputs ⟨none, none, none, none, none⟩
        (fun _ => some ⟨"AIR-OP-004", "Hallucination",
          [⟨"AIR-PREV-005", "Testing", "desc"⟩], [], []⟩)
        [(Risk.hallucination, 65)]).1 ∧
    ∃ r s fw, (r, s) ∈ [(Risk.hallucination, (65 : Int))] ∧ 50 ≤ s ∧
      (fun (_ : Risk) => some (Framework.mk "AIR-OP-004" "Hallucination"
        [⟨"AIR-PREV-005", "Testing", "desc"⟩] [] [])) r = some fw ∧
      (MitigationOut.mk "AIR-OP-004" "Hallucination" "AIR-PREV-005" "Testing" "Medium"
        "desc").riskId = fw.id ∧
      (MitigationOut.mk "AIR-OP-004" "Hallucination" "AIR-PREV-005" "Testing" "Medium"
        "desc").priority =
        (if 70 ≤ s then "High" else if 60 ≤ s then "Medium" else "Low") :=
  ⟨by decide,
    (finosOutputs_only_high_risks ⟨none, none, none, none, none⟩
      (fun _ => some ⟨"AIR-OP-004", "Hallucination",
        [⟨"AIR-PREV-005", "Testing", "desc"⟩], [], []⟩)
      [(Risk.hallucination, 65)]).1
      (MitigationOut.mk "AIR-OP-004" "Hallucination" "AIR-PREV-005" "Testing" "Medium" "desc")
      (by decide)⟩

end AIGov
